import Mathlib

/-!
Verification of the crop-yield prediction functions of this repository.

The TypeScript source is embedded shallowly over `ℚ`:
JavaScript numbers are modelled as exact rationals, decimal literals
such as `0.01`, `1.15` or `2.2` denote the exact decimal fractions,
`Math.max`/`Math.min`/`Math.abs` become `max`/`min`/`|·|`, and both
`Math.round(x * 100) / 100` and `parseFloat(x.toFixed(2))` are modelled
by `round2` (round to two decimal places).  `Math.sqrt` has no exact
computable counterpart on `ℚ`, so every function that uses it is
parametrised by the square-root function `s : ℚ → ℚ`; theorems either
hold for every `s` or assume only that `s` maps nonnegatives to
nonnegatives, and concrete instances take `s` to be a function agreeing
with the square root on the inputs involved.
`Array.prototype.sort` with comparator `(a, b) => a.distance - b.distance`
is a stable ascending sort by distance, modelled by `List.insertionSort`
with the relation `a.distance ≤ b.distance` (a stable sort).
-/

/-- Round a rational to two decimal places: models both
`Math.round(x * 100) / 100` and `parseFloat(x.toFixed(2))` from the source. -/
def round2 (x : ℚ) : ℚ := (round (x * 100) : ℤ) / 100

/-- A historical record of the `crops_dataset` table as used by the simple
prediction endpoint: base features plus the yield value. -/
structure CropRecord where
  temperature : ℚ
  rainfall : ℚ
  fertilizer : ℚ
  soil_ph : ℚ
  humidity : ℚ
  yield : ℚ
deriving DecidableEq

/-- A historical record as used by the enhanced prediction endpoint.  Its
distance computation reads the base features `temperature`, `rainfall`,
`humidity`, the NPK columns, and the optional engineered columns
`temp_rainfall_interaction` and `npkRatio` (source column name with an
underscore); `Option` models a column that may be absent (`null` or
`undefined` in JavaScript). -/
structure CropRecordEnh where
  temperature : ℚ
  rainfall : ℚ
  humidity : ℚ
  nitrogen : ℚ
  phosphorus : ℚ
  potassium : ℚ
  temp_rainfall_interaction : Option ℚ
  npkRatio : Option ℚ
  yield : ℚ
deriving DecidableEq

/-- The pair `{ distance, yield }` built for every record by the
`trainingData.map` step of both `predictRandomForest` versions. -/
structure DistYield where
  distance : ℚ
  yield : ℚ
deriving DecidableEq

instance : IsTotal DistYield (fun a b => a.distance ≤ b.distance) :=
  ⟨fun a b => le_total a.distance b.distance⟩

instance : IsTrans DistYield (fun a b => a.distance ≤ b.distance) :=
  ⟨fun _ _ _ h1 h2 => le_trans h1 h2⟩

/-- `predictLinearRegression` of the simple prediction endpoint:
intercept 1000, coefficients temperature 50, rainfall 2.5, fertilizer 15,
soil_ph 200, humidity 10, result `Math.max(500, Math.round(v * 100) / 100)`. -/
def predictLinearRegression (temp rain fert ph humid : ℚ) : ℚ :=
  let intercept : ℚ := 1000
  let yield_value :=
    intercept + 50 * temp + 2.5 * rain + 15 * fert + 200 * ph + 10 * humid
  max 500 (round2 yield_value)

/-- `predictLinearRegression` of the enhanced prediction endpoint:
intercept 800, coefficients temperature 45, rainfall 2.2, fertilizer 14,
soil_ph 180, humidity 9, nitrogen 2, phosphorus 1, potassium 1.5,
interactions 5 and 3, temp_squared -0.5, NPK ratio 10, and result
`Math.max(500, parseFloat(v.toFixed(2)))`. -/
def predictLinearRegressionEnh
    (temp rain fert ph humid n p k tr_int pf_int t_sq npk_r : ℚ) : ℚ :=
  let intercept : ℚ := 800
  let yield_value :=
    intercept + 45 * temp + 2.2 * rain + 14 * fert + 180 * ph + 9 * humid +
      2 * n + 1 * p + 1.5 * k + 5 * tr_int + 3 * pf_int +
      (-0.5) * t_sq + 10 * npk_r
  max 500 (round2 yield_value)

/-- `determineBestCrop`: the ordered if/else chain over temperature and
rainfall, identical in both endpoint versions; default "Barley". -/
def determineBestCrop (temp rain fert ph humid : ℚ) : String :=
  if temp > 30 ∧ rain > 1200 then "Rice"
  else if temp > 25 ∧ rain > 800 ∧ rain < 1200 then "Corn"
  else if temp > 28 ∧ rain > 1000 then "Sugarcane"
  else if temp < 25 ∧ rain < 800 then "Wheat"
  else if temp > 25 ∧ rain < 700 then "Cotton"
  else if temp < 28 ∧ rain > 600 ∧ rain < 1000 then "Soybean"
  else "Barley"

/-- The inverse-distance weight `1 / (n.distance + 0.01)` applied to each
nearest neighbour in both `predictRandomForest` versions. -/
def knnWeight (d : ℚ) : ℚ := 1 / (d + 0.01)

/-- The `{ distance, yield }` pair computed for one record by the simple
endpoint's `trainingData.map`: absolute feature differences scaled by the
characteristic ranges 25, 1500, 250, 2.5, 50, combined by
`Math.sqrt` (modelled by `s`) of the sum of squares. -/
def rfDistanceYield (s : ℚ → ℚ) (temp rain fert ph humid : ℚ)
    (record : CropRecord) : DistYield :=
  let tempDist := |record.temperature - temp| / 25
  let rainDist := |record.rainfall - rain| / 1500
  let fertDist := |record.fertilizer - fert| / 250
  let phDist := |record.soil_ph - ph| / 2.5
  let humidDist := |record.humidity - humid| / 50
  let distance :=
    s (tempDist ^ 2 + rainDist ^ 2 + fertDist ^ 2 + phDist ^ 2 + humidDist ^ 2)
  ⟨distance, record.yield⟩

/-- The `distances` array of the simple endpoint's `predictRandomForest`. -/
def rfDistances (s : ℚ → ℚ) (temp rain fert ph humid : ℚ)
    (td : List CropRecord) : List DistYield :=
  td.map (rfDistanceYield s temp rain fert ph humid)

/-- The `distances.sort((a, b) => a.distance - b.distance)` step:
stable ascending sort by distance. -/
def rfSorted (s : ℚ → ℚ) (temp rain fert ph humid : ℚ)
    (td : List CropRecord) : List DistYield :=
  (rfDistances s temp rain fert ph humid td).insertionSort
    (fun a b => a.distance ≤ b.distance)

/-- The `nearest = distances.slice(0, k)` step with `k = Math.min(10, N)`. -/
def rfNearest (s : ℚ → ℚ) (temp rain fert ph humid : ℚ)
    (td : List CropRecord) : List DistYield :=
  (rfSorted s temp rain fert ph humid td).take (min 10 td.length)

/-- The `totalWeight` reduce of the simple endpoint. -/
def rfTotalWeight (s : ℚ → ℚ) (temp rain fert ph humid : ℚ)
    (td : List CropRecord) : ℚ :=
  (rfNearest s temp rain fert ph humid td).foldl
    (fun sum n => sum + knnWeight n.distance) 0

/-- The `weightedYield` reduce of the simple endpoint: each term is
`n.yield * (1 / (n.distance + 0.01)) / totalWeight`. -/
def rfWeightedYield (s : ℚ → ℚ) (temp rain fert ph humid : ℚ)
    (td : List CropRecord) : ℚ :=
  (rfNearest s temp rain fert ph humid td).foldl
    (fun sum n =>
      sum + n.yield * knnWeight n.distance /
        rfTotalWeight s temp rain fert ph humid td) 0

/-- `predictRandomForest` of the simple prediction endpoint.  The
`!trainingData || trainingData.length === 0` guard (a missing or empty
historical set) falls back to `predictLinearRegression(...) * 1.15`;
otherwise the weighted nearest-neighbour average is returned rounded
with `Math.round(weightedYield * 100) / 100`. -/
def predictRandomForest (s : ℚ → ℚ) (temp rain fert ph humid : ℚ)
    (trainingData : Option (List CropRecord)) : ℚ :=
  match trainingData with
  | none => predictLinearRegression temp rain fert ph humid * 1.15
  | some td =>
    if td.length = 0 then predictLinearRegression temp rain fert ph humid * 1.15
    else round2 (rfWeightedYield s temp rain fert ph humid td)

/-- Follows the specification's words for the KNN estimator: sort the
per-record distances ascending, take the `k = min(10, N)` closest, weight
each by `1 / (distance + 0.01)`, and form the weight-normalized average of
their yield values (a quotient of a weighted sum by the total weight).
No rounding appears, since the specification sentence mentions none. -/
def knnSpecEstimate (s : ℚ → ℚ) (temp rain fert ph humid : ℚ)
    (td : List CropRecord) : ℚ :=
  let nearest :=
    ((td.map (rfDistanceYield s temp rain fert ph humid)).insertionSort
      (fun a b => a.distance ≤ b.distance)).take (min 10 td.length)
  (nearest.map fun n => n.yield * knnWeight n.distance).sum /
    (nearest.map fun n => knnWeight n.distance).sum

/-- A truthiness-guarded term of the enhanced distance: JavaScript's
`field ? expr(field) : 0` is `0` when the field is absent or equals `0`
(both are falsy), and `expr(value)` otherwise. -/
def optTerm (o : Option ℚ) (f : ℚ → ℚ) : ℚ :=
  match o with
  | none => 0
  | some v => if v = 0 then 0 else f v

/-- The `{ distance, yield }` pair computed for one record by the enhanced
endpoint's `trainingData.map`: squared differences of temperature, rainfall
and humidity scaled by 25, 1500, 50, plus truthiness-guarded engineered
terms for `temp_rainfall_interaction` (against `temp * rain / 1000`, scaled
by 10) and the NPK ratio column (against the record's own
`nitrogen / (phosphorus + potassium + 1)`, scaled by 0.5). -/
def rfEnhDistanceYield (s : ℚ → ℚ) (temp rain humid : ℚ)
    (record : CropRecordEnh) : DistYield :=
  let baseDistSq :=
    ((record.temperature - temp) / 25) ^ 2 +
      ((record.rainfall - rain) / 1500) ^ 2 +
      ((record.humidity - humid) / 50) ^ 2
  let engineeredDistSq :=
    optTerm record.temp_rainfall_interaction
        (fun v => ((v - temp * rain / 1000) / 10) ^ 2) +
      optTerm record.npkRatio
        (fun v =>
          ((v - record.nitrogen / (record.phosphorus + record.potassium + 1))
            / 0.5) ^ 2)
  ⟨s (baseDistSq + engineeredDistSq), record.yield⟩

/-- The `distances` array of the enhanced endpoint's `predictRandomForest`. -/
def rfEnhDistances (s : ℚ → ℚ) (temp rain humid : ℚ)
    (td : List CropRecordEnh) : List DistYield :=
  td.map (rfEnhDistanceYield s temp rain humid)

/-- The sort step of the enhanced endpoint. -/
def rfEnhSorted (s : ℚ → ℚ) (temp rain humid : ℚ)
    (td : List CropRecordEnh) : List DistYield :=
  (rfEnhDistances s temp rain humid td).insertionSort
    (fun a b => a.distance ≤ b.distance)

/-- The slice step of the enhanced endpoint, `k = Math.min(10, N)`. -/
def rfEnhNearest (s : ℚ → ℚ) (temp rain humid : ℚ)
    (td : List CropRecordEnh) : List DistYield :=
  (rfEnhSorted s temp rain humid td).take (min 10 td.length)

/-- The `totalWeight` reduce of the enhanced endpoint. -/
def rfEnhTotalWeight (s : ℚ → ℚ) (temp rain humid : ℚ)
    (td : List CropRecordEnh) : ℚ :=
  (rfEnhNearest s temp rain humid td).foldl
    (fun sum n => sum + knnWeight n.distance) 0

/-- The `weightedYield` reduce of the enhanced endpoint. -/
def rfEnhWeightedYield (s : ℚ → ℚ) (temp rain humid : ℚ)
    (td : List CropRecordEnh) : ℚ :=
  (rfEnhNearest s temp rain humid td).foldl
    (fun sum n =>
      sum + n.yield * knnWeight n.distance /
        rfEnhTotalWeight s temp rain humid td) 0

/-- `predictRandomForest` of the enhanced prediction endpoint.  Signature
`(temp, rain, fert, ph, humid, trainingData)`; the empty/missing guard falls
back to `predictLinearRegression(temp, rain, fert, ph, humid,
0,0,0,0,0,0,0) * 1.10`, otherwise the KNN average is returned rounded via
`parseFloat(weightedYield.toFixed(2))`. -/
def predictRandomForestEnh (s : ℚ → ℚ) (temp rain fert ph humid : ℚ)
    (trainingData : Option (List CropRecordEnh)) : ℚ :=
  match trainingData with
  | none =>
    predictLinearRegressionEnh temp rain fert ph humid 0 0 0 0 0 0 0 * 1.10
  | some td =>
    if td.length = 0 then
      predictLinearRegressionEnh temp rain fert ph humid 0 0 0 0 0 0 0 * 1.10
    else round2 (rfEnhWeightedYield s temp rain humid td)

/-- The JSON body of a request to the enhanced prediction endpoint. -/
structure QueryEnh where
  temperature : ℚ
  rainfall : ℚ
  fertilizer : ℚ
  soil_ph : ℚ
  humidity : ℚ
  nitrogen : ℚ
  phosphorus : ℚ
  potassium : ℚ
deriving DecidableEq

/-- `capped_temp = Math.max(10, Math.min(45, temperature))` of the enhanced
endpoint's handler. -/
def cappedTemp (q : QueryEnh) : ℚ := max 10 (min 45 q.temperature)

/-- `capped_rainfall = Math.max(100, Math.min(2500, rainfall))` of the
enhanced endpoint's handler. -/
def cappedRainfall (q : QueryEnh) : ℚ := max 100 (min 2500 q.rainfall)

/-- The `rfYield` value computed by the enhanced endpoint's handler:
`predictRandomForest(capped_temp, capped_rainfall, fertilizer, soil_ph,
humidity, trainingData)`.  The query's nitrogen, phosphorus and potassium
are not passed. -/
def rfYieldOfQuery (s : ℚ → ℚ) (q : QueryEnh)
    (trainingData : Option (List CropRecordEnh)) : ℚ :=
  predictRandomForestEnh s (cappedTemp q) (cappedRainfall q)
    q.fertilizer q.soil_ph q.humidity trainingData

/-- The pre-clamp `yieldValue` of one record of the enhanced dataset
generator (`generate-dataset/index.ts`): base factors from capped
temperature and rainfall, fertility, pH and humidity, an engineered factor
from the interaction, square and ratio features, times the random
variation, on top of the crop's yield range. -/
def genYieldValue (minYield maxYield temperature rainfall fertilizer
    soil_ph humidity nitrogen phosphorus potassium randomVariation : ℚ) : ℚ :=
  let capped_temp := max 10 (min 45 temperature)
  let capped_rainfall := max 100 (min 2500 rainfall)
  let temp_rainfall_interaction := capped_temp * capped_rainfall / 1000
  let ph_fertilizer_interaction := soil_ph * fertilizer / 100
  let temp_squared := (capped_temp / 10) ^ 2
  let npk_r := nitrogen / (phosphorus + potassium + 1)
  let tempFactor := 1 - |capped_temp - 25| / 40
  let rainFactor := min (capped_rainfall / 1000) 1.5
  let fertFactor := min (fertilizer / 200) 1.3
  let phFactor := 1 - |soil_ph - 6.8| / 3
  let humidityFactor := min (humidity / 70) 1.2
  let baseFactor :=
    (tempFactor + rainFactor + fertFactor + phFactor + humidityFactor) / 5
  let engineeredFactor :=
    0.1 * temp_rainfall_interaction + 0.05 * ph_fertilizer_interaction -
      0.02 * temp_squared + 0.03 * npk_r
  minYield + (maxYield - minYield) * baseFactor * (1 + engineeredFactor) *
    randomVariation

/-- The `yield` field stored for one generated record:
`Math.max(0, parseFloat(yieldValue.toFixed(2)))`. -/
def genRecordYield (minYield maxYield temperature rainfall fertilizer
    soil_ph humidity nitrogen phosphorus potassium randomVariation : ℚ) : ℚ :=
  max 0 (round2 (genYieldValue minYield maxYield temperature rainfall
    fertilizer soil_ph humidity nitrogen phosphorus potassium
    randomVariation))

/-- The pre-rounding `yieldValue` of one record of the simple dataset
generator (`part_000` of the sources): the five environmental factors
averaged and applied to the crop's yield range with the random variation;
this version has no engineered features, no capping, and no clamp. -/
def genYieldValueSimple (minYield maxYield temperature rainfall fertilizer
    soil_ph humidity randomVariation : ℚ) : ℚ :=
  let tempFactor := 1 - |temperature - 25| / 40
  let rainFactor := min (rainfall / 1000) 1.5
  let fertFactor := min (fertilizer / 200) 1.3
  let phFactor := 1 - |soil_ph - 6.8| / 3
  let humidityFactor := min (humidity / 70) 1.2
  let baseFactor :=
    (tempFactor + rainFactor + fertFactor + phFactor + humidityFactor) / 5
  minYield + (maxYield - minYield) * baseFactor * randomVariation

/-- The `yield` field stored by the simple dataset generator:
`Math.round(yieldValue * 100) / 100`, without a clamp. -/
def genRecordYieldSimple (minYield maxYield temperature rainfall fertilizer
    soil_ph humidity randomVariation : ℚ) : ℚ :=
  round2 (genYieldValueSimple minYield maxYield temperature rainfall
    fertilizer soil_ph humidity randomVariation)

/-- The body of an HTTP response produced by a handler: a prediction
result, a generation result, the empty body of the OPTIONS branch, or an
error object carrying the caught error's message. -/
inductive ResponseBody where
  | predictOk (crop : String) (lr rf : ℚ)
  | generateOk (records_created : ℕ)
  | empty
  | err (msg : String)
deriving DecidableEq

/-- An HTTP response: status code and body. -/
structure HttpResponse where
  status : ℕ
  body : ResponseBody
deriving DecidableEq

/-- The fallible body of the simple prediction endpoint's `try` block.
Each effectful step (JSON parsing, the training-data fetch whose error is
re-thrown, and the prediction insert whose error is re-thrown) is a
supplied `Except` outcome; in between, the handler computes the two yield
estimates and the crop exactly as the source does. -/
def predictHandlerCore (s : ℚ → ℚ)
    (parseBody : Except String QueryEnh)
    (fetchTraining : Except String (List CropRecord))
    (storePrediction : Except String Unit) : Except String ResponseBody := do
  let input ← parseBody
  let trainingData ← fetchTraining
  let lrYield := predictLinearRegression input.temperature input.rainfall
    input.fertilizer input.soil_ph input.humidity
  let rfYield := predictRandomForest s input.temperature input.rainfall
    input.fertilizer input.soil_ph input.humidity (some trainingData)
  let predictedCrop := determineBestCrop input.temperature input.rainfall
    input.fertilizer input.soil_ph input.humidity
  let _ ← storePrediction
  pure (ResponseBody.predictOk predictedCrop lrYield rfYield)

/-- Sequencing of the generator's batch inserts: the source loops over
batches and re-throws the first insert error. -/
def seqInserts : List (Except String Unit) → Except String Unit
  | [] => Except.ok ()
  | b :: bs => do
    let _ ← b
    seqInserts bs

/-- The fallible body of the dataset-generation endpoint's `try` block:
run all batch inserts, then report the record count (the metrics insert's
outcome is not checked by the source, so it cannot raise). -/
def generateHandlerCore (batchInserts : List (Except String Unit))
    (recordCount : ℕ) : Except String ResponseBody := do
  let _ ← seqInserts batchInserts
  pure (ResponseBody.generateOk recordCount)

/-- The shared outer `try/catch` of both `serve` handlers: a successful
body becomes a 200 response, a caught error becomes a 500 response whose
body carries the error message. -/
def catchWrap (result : Except String ResponseBody) : HttpResponse :=
  match result with
  | Except.ok b => ⟨200, b⟩
  | Except.error e => ⟨500, ResponseBody.err e⟩

/-- The simple prediction endpoint's `serve` callback: the OPTIONS
preflight branch answers with an empty body, everything else runs the
`try` block under the outer `catch`. -/
def predictServe (isOptionsReq : Bool) (s : ℚ → ℚ)
    (parseBody : Except String QueryEnh)
    (fetchTraining : Except String (List CropRecord))
    (storePrediction : Except String Unit) : HttpResponse :=
  if isOptionsReq then ⟨200, ResponseBody.empty⟩
  else catchWrap (predictHandlerCore s parseBody fetchTraining storePrediction)

/-- The dataset-generation endpoint's `serve` callback. -/
def generateServe (isOptionsReq : Bool)
    (batchInserts : List (Except String Unit))
    (recordCount : ℕ) : HttpResponse :=
  if isOptionsReq then ⟨200, ResponseBody.empty⟩
  else catchWrap (generateHandlerCore batchInserts recordCount)

/-! ## Shared lemmas -/

/-- A left fold accumulating `sum + f n` is the accumulator plus the sum of
the mapped list. -/
lemma foldl_add_map (f : DistYield → ℚ) :
    ∀ (l : List DistYield) (a : ℚ),
      l.foldl (fun sum n => sum + f n) a = a + (l.map f).sum := by
  intro l
  induction l with
  | nil => intro a; simp
  | cons x xs ih => intro a; simp [ih, add_assoc]

/-- Dividing each mapped term by a constant divides the sum. -/
lemma sum_map_div (g : DistYield → ℚ) (c : ℚ) :
    ∀ l : List DistYield,
      (l.map fun n => g n / c).sum = (l.map g).sum / c := by
  intro l
  induction l with
  | nil => simp
  | cons x xs ih => simp [ih, add_div]

/-- The total weight is the sum of the weights of the nearest records. -/
lemma rfTotalWeight_eq_sum (s : ℚ → ℚ) (temp rain fert ph humid : ℚ)
    (td : List CropRecord) :
    rfTotalWeight s temp rain fert ph humid td =
      ((rfNearest s temp rain fert ph humid td).map
        fun n => knnWeight n.distance).sum := by
  rw [rfTotalWeight]
  simpa using foldl_add_map (fun n => knnWeight n.distance) _ 0

/-- The weighted yield is the weighted sum of yields over the total weight. -/
lemma rfWeightedYield_eq_div (s : ℚ → ℚ) (temp rain fert ph humid : ℚ)
    (td : List CropRecord) :
    rfWeightedYield s temp rain fert ph humid td =
      ((rfNearest s temp rain fert ph humid td).map
          fun n => n.yield * knnWeight n.distance).sum /
        rfTotalWeight s temp rain fert ph humid td := by
  rw [rfWeightedYield]
  rw [foldl_add_map
    (fun n => n.yield * knnWeight n.distance /
      rfTotalWeight s temp rain fert ph humid td)]
  rw [sum_map_div (fun n => n.yield * knnWeight n.distance)]
  simp

/-! ## Claim theorems -/

/-- C2: with an absent or empty historical set, both versions of
`predictRandomForest` return exactly the linear estimator's result for the
same inputs times the constant multiplier (1.15 for the simple endpoint,
1.10 for the enhanced one, which fills the extra features with zeros). -/
theorem rf_empty_fallback_is_scaled_linear (s : ℚ → ℚ)
    (temp rain fert ph humid : ℚ) :
    predictRandomForest s temp rain fert ph humid none =
        predictLinearRegression temp rain fert ph humid * 1.15 ∧
      predictRandomForest s temp rain fert ph humid (some []) =
        predictLinearRegression temp rain fert ph humid * 1.15 ∧
      predictRandomForestEnh s temp rain fert ph humid none =
        predictLinearRegressionEnh temp rain fert ph humid 0 0 0 0 0 0 0
          * 1.10 ∧
      predictRandomForestEnh s temp rain fert ph humid (some []) =
        predictLinearRegressionEnh temp rain fert ph humid 0 0 0 0 0 0 0
          * 1.10 := by
  refine ⟨rfl, ?_, rfl, ?_⟩ <;> simp [predictRandomForest, predictRandomForestEnh]

/-- C3: both versions of `predictLinearRegression` are pure functions
(identical input vectors give identical outputs) and their output is always
at least the floor of 500. -/
theorem linear_regression_pure_and_floored :
    (∀ t r f p h t' r' f' p' h' : ℚ, t = t' → r = r' → f = f' → p = p' →
        h = h' → predictLinearRegression t r f p h =
          predictLinearRegression t' r' f' p' h') ∧
      (∀ t r f p h : ℚ, 500 ≤ predictLinearRegression t r f p h) ∧
      (∀ t r f p h n np nk tr pf tsq nr t' r' f' p' h' n' np' nk' tr' pf'
          tsq' nr' : ℚ, t = t' → r = r' → f = f' → p = p' → h = h' →
          n = n' → np = np' → nk = nk' → tr = tr' → pf = pf' → tsq = tsq' →
          nr = nr' →
          predictLinearRegressionEnh t r f p h n np nk tr pf tsq nr =
            predictLinearRegressionEnh t' r' f' p' h' n' np' nk' tr' pf'
              tsq' nr') ∧
      (∀ t r f p h n np nk tr pf tsq nr : ℚ,
        500 ≤ predictLinearRegressionEnh t r f p h n np nk tr pf tsq nr) := by
  refine ⟨?_, ?_, ?_, ?_⟩
  · intro t r f p h t' r' f' p' h' h1 h2 h3 h4 h5
    subst h1; subst h2; subst h3; subst h4; subst h5; rfl
  · intro t r f p h; exact le_max_left _ _
  · intro t r f p h n np nk tr pf tsq nr t' r' f' p' h' n' np' nk' tr' pf'
      tsq' nr' h1 h2 h3 h4 h5 h6 h7 h8 h9 h10 h11 h12
    subst h1; subst h2; subst h3; subst h4; subst h5; subst h6; subst h7
    subst h8; subst h9; subst h10; subst h11; subst h12; rfl
  · intro t r f p h n np nk tr pf tsq nr; exact le_max_left _ _

/-- Witness for C3 at a concrete input vector. -/
theorem linear_regression_pure_and_floored_witness :
    predictLinearRegression 1 2 3 4 5 = predictLinearRegression 1 2 3 4 5 ∧
      500 ≤ predictLinearRegression 1 2 3 4 5 :=
  ⟨linear_regression_pure_and_floored.1 1 2 3 4 5 1 2 3 4 5 rfl rfl rfl rfl
      rfl,
    linear_regression_pure_and_floored.2.1 1 2 3 4 5⟩

/-- C4: the rule chain returns "Rice" at temperature 32, rainfall 1300
even though the later Sugarcane rule (temp > 28 and rain > 1000) also
matches, returns "Wheat" at temperature 20, rainfall 500, and returns the
default "Barley" whenever no rule matches. -/
theorem determine_best_crop_rules :
    determineBestCrop 32 1300 0 0 0 = "Rice" ∧
      ((32 : ℚ) > 28 ∧ (1300 : ℚ) > 1000) ∧
      determineBestCrop 20 500 0 0 0 = "Wheat" ∧
      (∀ temp rain fert ph humid : ℚ,
        ¬(temp > 30 ∧ rain > 1200) →
        ¬(temp > 25 ∧ rain > 800 ∧ rain < 1200) →
        ¬(temp > 28 ∧ rain > 1000) →
        ¬(temp < 25 ∧ rain < 800) →
        ¬(temp > 25 ∧ rain < 700) →
        ¬(temp < 28 ∧ rain > 600 ∧ rain < 1000) →
        determineBestCrop temp rain fert ph humid = "Barley") := by
  refine ⟨by norm_num [determineBestCrop], by norm_num,
    by norm_num [determineBestCrop], ?_⟩
  intro temp rain fert ph humid h1 h2 h3 h4 h5 h6
  rw [determineBestCrop, if_neg h1, if_neg h2, if_neg h3, if_neg h4,
    if_neg h5, if_neg h6]

/-- Witness for C4 at an input matching no rule. -/
theorem determine_best_crop_rules_witness :
    determineBestCrop 27 1500 0 0 0 = "Barley" :=
  determine_best_crop_rules.2.2.2 27 1500 0 0 0 (by norm_num) (by norm_num)
    (by norm_num) (by norm_num) (by norm_num) (by norm_num)

/-- C5: equal distances from the query give equal inverse-distance weights,
the weighting is strictly monotone (closer means strictly greater weight),
and a point at distance 0 has the maximal weight 1 / 0.01, dominating the
weight of any point at positive distance. -/
theorem knn_weighting_properties :
    (∀ (s : ℚ → ℚ) (temp rain fert ph humid : ℚ) (r1 r2 : CropRecord),
        (rfDistanceYield s temp rain fert ph humid r1).distance =
          (rfDistanceYield s temp rain fert ph humid r2).distance →
        knnWeight (rfDistanceYield s temp rain fert ph humid r1).distance =
          knnWeight (rfDistanceYield s temp rain fert ph humid r2).distance) ∧
      (∀ d1 d2 : ℚ, 0 ≤ d1 → d1 < d2 → knnWeight d2 < knnWeight d1) ∧
      knnWeight 0 = 1 / 0.01 ∧
      (∀ d : ℚ, 0 < d → knnWeight d < knnWeight 0) := by
  have mono : ∀ d1 d2 : ℚ, 0 ≤ d1 → d1 < d2 → knnWeight d2 < knnWeight d1 := by
    intro d1 d2 h0 hlt
    rw [knnWeight, knnWeight]
    refine one_div_lt_one_div_of_lt ?_ ?_
    · positivity
    · exact add_lt_add_right hlt _
  refine ⟨?_, mono, by norm_num [knnWeight], ?_⟩
  · intro s temp rain fert ph humid r1 r2 h
    rw [h]
  · intro d hd
    exact mono 0 d le_rfl hd

/-- Witness for C5: two records at the same coordinates have equal weight,
and the weight at distance 1 is strictly below the weight at distance 0. -/
theorem knn_weighting_properties_witness :
    knnWeight (rfDistanceYield id 25 1000 100 7 60
        ⟨25, 1000, 100, 7, 60, 3000⟩).distance =
      knnWeight (rfDistanceYield id 25 1000 100 7 60
        ⟨25, 1000, 100, 7, 60, 4000⟩).distance ∧
      knnWeight 1 < knnWeight 0 ∧ knnWeight 0 = 1 / 0.01 :=
  ⟨knn_weighting_properties.1 id 25 1000 100 7 60 _ _ rfl,
    knn_weighting_properties.2.2.2 1 one_pos,
    knn_weighting_properties.2.2.1⟩

/-- A nonnegative rational stays nonnegative after rounding to two
decimal places. -/
lemma round2_nonneg {x : ℚ} (h : 0 ≤ x) : 0 ≤ round2 x := by
  rw [round2, round_eq]
  have h0 : (0 : ℤ) ≤ ⌊x * 100 + 1 / 2⌋ := Int.floor_nonneg.mpr (by linarith)
  exact div_nonneg (by exact_mod_cast h0) (by norm_num)

/-- The simple generator's pre-rounding yield is nonnegative on the ranges
the generator draws from (crop yield ranges are nonnegative and ordered,
temperature in [15, 40], rainfall at least 300, fertilizer at least 50,
soil pH in [5.5, 8], humidity at least 40, variation at least 0.8). -/
lemma genYieldValueSimple_nonneg
    {minYield maxYield temperature rainfall fertilizer soil_ph humidity
      randomVariation : ℚ}
    (hmin : 0 ≤ minYield) (hmm : minYield ≤ maxYield)
    (ht : 15 ≤ temperature) (ht2 : temperature ≤ 40) (hr : 300 ≤ rainfall)
    (hf : 50 ≤ fertilizer) (hp : 5.5 ≤ soil_ph) (hp2 : soil_ph ≤ 8)
    (hh : 40 ≤ humidity) (hv : 0.8 ≤ randomVariation) :
    0 ≤ genYieldValueSimple minYield maxYield temperature rainfall
      fertilizer soil_ph humidity randomVariation := by
  simp only [genYieldValueSimple]
  have e1 : |temperature - 25| ≤ 15 := abs_le.mpr ⟨by linarith, by linarith⟩
  have e2 : |soil_ph - 6.8| ≤ 1.3 := abs_le.mpr ⟨by linarith, by linarith⟩
  have e3 : (3 : ℚ) / 10 ≤ min (rainfall / 1000) 1.5 :=
    le_min (by linarith) (by norm_num)
  have e4 : (1 : ℚ) / 4 ≤ min (fertilizer / 200) 1.3 :=
    le_min (by linarith) (by norm_num)
  have e5 : (4 : ℚ) / 7 ≤ min (humidity / 70) 1.2 :=
    le_min (by linarith) (by norm_num)
  have hbase : 0 ≤ (1 - |temperature - 25| / 40 + min (rainfall / 1000) 1.5 +
      min (fertilizer / 200) 1.3 + (1 - |soil_ph - 6.8| / 3) +
      min (humidity / 70) 1.2) / 5 := by linarith
  have hprod := mul_nonneg (mul_nonneg (sub_nonneg.mpr hmm) hbase)
    (le_trans (by norm_num : (0 : ℚ) ≤ 0.8) hv)
  linarith

/-- C6: every record built by the dataset generators stores a non-negative
yield.  The enhanced generator clamps with `Math.max(0, ·)`, so its yield
is non-negative for every draw; the simple generator has no clamp, but on
the ranges it draws from (and the crop table's nonnegative yield ranges)
its yield is non-negative as well. -/
theorem generated_yield_nonneg :
    (∀ minYield maxYield temperature rainfall fertilizer soil_ph humidity
        nitrogen phosphorus potassium randomVariation : ℚ,
      0 ≤ genRecordYield minYield maxYield temperature rainfall fertilizer
        soil_ph humidity nitrogen phosphorus potassium randomVariation) ∧
      (∀ minYield maxYield temperature rainfall fertilizer soil_ph humidity
          randomVariation : ℚ,
        0 ≤ minYield → minYield ≤ maxYield → 15 ≤ temperature →
        temperature ≤ 40 → 300 ≤ rainfall → 50 ≤ fertilizer →
        5.5 ≤ soil_ph → soil_ph ≤ 8 → 40 ≤ humidity →
        0.8 ≤ randomVariation →
        0 ≤ genRecordYieldSimple minYield maxYield temperature rainfall
          fertilizer soil_ph humidity randomVariation) := by
  constructor
  · intro minYield maxYield temperature rainfall fertilizer soil_ph humidity
      nitrogen phosphorus potassium randomVariation
    exact le_max_left 0 _
  · intro minYield maxYield temperature rainfall fertilizer soil_ph humidity
      randomVariation hmin hmm ht ht2 hr hf hp hp2 hh hv
    exact round2_nonneg (genYieldValueSimple_nonneg hmin hmm ht ht2 hr hf
      hp hp2 hh hv)

/-- Witness for C6 at Wheat's yield range and mid-range conditions. -/
theorem generated_yield_nonneg_witness :
    0 ≤ genRecordYieldSimple 2000 5000 25 1000 100 7 60 1 :=
  generated_yield_nonneg.2 2000 5000 25 1000 100 7 60 1 (by norm_num)
    (by norm_num) (by norm_num) (by norm_num) (by norm_num) (by norm_num)
    (by norm_num) (by norm_num) (by norm_num) (by norm_num)

/-- C8: in both `serve` handlers every failure raised inside the `try`
block is caught at the outer level and turned into a 500 response whose
body carries the error message, and no status other than 200 or 500 is
ever produced. -/
theorem handler_failures_become_500 :
    (∀ (s : ℚ → ℚ) (pb : Except String QueryEnh)
        (ft : Except String (List CropRecord)) (sp : Except String Unit)
        (e : String), predictHandlerCore s pb ft sp = Except.error e →
        predictServe false s pb ft sp = ⟨500, ResponseBody.err e⟩) ∧
      (∀ (opts : Bool) (s : ℚ → ℚ) (pb : Except String QueryEnh)
          (ft : Except String (List CropRecord)) (sp : Except String Unit),
        (predictServe opts s pb ft sp).status = 200 ∨
          (predictServe opts s pb ft sp).status = 500) ∧
      (∀ (bi : List (Except String Unit)) (rc : ℕ) (e : String),
        generateHandlerCore bi rc = Except.error e →
        generateServe false bi rc = ⟨500, ResponseBody.err e⟩) ∧
      (∀ (opts : Bool) (bi : List (Except String Unit)) (rc : ℕ),
        (generateServe opts bi rc).status = 200 ∨
          (generateServe opts bi rc).status = 500) := by
  refine ⟨?_, ?_, ?_, ?_⟩
  · intro s pb ft sp e h
    simp [predictServe, h, catchWrap]
  · intro opts s pb ft sp
    rw [predictServe]
    cases opts with
    | true => simp
    | false =>
      simp only [if_neg Bool.false_ne_true, catchWrap]
      cases predictHandlerCore s pb ft sp with
      | ok b => left; rfl
      | error e => right; rfl
  · intro bi rc e h
    simp [generateServe, h, catchWrap]
  · intro opts bi rc
    rw [generateServe]
    cases opts with
    | true => simp
    | false =>
      simp only [if_neg Bool.false_ne_true, catchWrap]
      cases generateHandlerCore bi rc with
      | ok b => left; rfl
      | error e => right; rfl

/-- Witness for C8: a malformed request body yields the 500 response with
its message, and a failing batch insert does the same for the generator. -/
theorem handler_failures_become_500_witness :
    predictServe false id (Except.error "malformed input") (Except.ok [])
        (Except.ok ()) = ⟨500, ResponseBody.err "malformed input"⟩ ∧
      generateServe false [Except.error "storage down"] 5000 =
        ⟨500, ResponseBody.err "storage down"⟩ :=
  ⟨handler_failures_become_500.1 id (Except.error "malformed input")
      (Except.ok []) (Except.ok ()) "malformed input" rfl,
    handler_failures_become_500.2.2.1 [Except.error "storage down"] 5000
      "storage down" rfl⟩

/-- C7 counterexample: on the shared input vector (25, 1000, 100, 7, 60)
(zero NPK and engineered contributions) the simple estimator returns 8250
while the enhanced one returns 7325; their coefficients differ. -/
theorem lr_versions_differ_at_concrete_input :
    predictLinearRegression 25 1000 100 7 60 ≠
      predictLinearRegressionEnh 25 1000 100 7 60 0 0 0 0 0 0 0 := by
  norm_num [predictLinearRegression, predictLinearRegressionEnh, round2,
    round_eq]

/-- Auxiliary: two values both at most 500 give the same `Math.max(500, ·)`. -/
lemma max500_congr {a b : ℚ} (ha : a ≤ 500) (hb : b ≤ 500) :
    max 500 a = max 500 b := by
  rw [max_eq_left ha, max_eq_left hb]

/-- C7 amended: the two implementations of the linear estimator share only
the floor of 500, not the coefficients (intercept 1000 versus 800,
temperature 50 versus 45, and so on): every output of either version is at
least 500, and the two versions agree on a shared input exactly where both
affine parts are at or below the floor, both returning 500 there. -/
theorem lr_versions_share_only_floor :
    (∀ t r f p h : ℚ, 500 ≤ predictLinearRegression t r f p h) ∧
      (∀ t r f p h n np nk tr pf tsq nr : ℚ,
        500 ≤ predictLinearRegressionEnh t r f p h n np nk tr pf tsq nr) ∧
      (∀ t r f p h : ℚ,
        round2 (1000 + 50 * t + 2.5 * r + 15 * f + 200 * p + 10 * h) ≤ 500 →
        round2 (800 + 45 * t + 2.2 * r + 14 * f + 180 * p + 9 * h) ≤ 500 →
        predictLinearRegression t r f p h =
          predictLinearRegressionEnh t r f p h 0 0 0 0 0 0 0) := by
  refine ⟨fun t r f p h => le_max_left _ _,
    fun t r f p h n np nk tr pf tsq nr => le_max_left _ _, ?_⟩
  intro t r f p h h1 h2
  show max 500 (round2 (1000 + 50 * t + 2.5 * r + 15 * f + 200 * p +
      10 * h)) =
    max 500 (round2 (800 + 45 * t + 2.2 * r + 14 * f + 180 * p + 9 * h +
      2 * 0 + 1 * 0 + 1.5 * 0 + 5 * 0 + 3 * 0 + (-0.5) * 0 + 10 * 0))
  have hz : (800 + 45 * t + 2.2 * r + 14 * f + 180 * p + 9 * h +
      2 * 0 + 1 * 0 + 1.5 * 0 + 5 * 0 + 3 * 0 + (-0.5) * 0 + 10 * 0 : ℚ) =
      800 + 45 * t + 2.2 * r + 14 * f + 180 * p + 9 * h := by ring
  rw [hz]
  exact max500_congr h1 h2

/-- Witness for C7's amended statement: at temperature -100 both affine
parts fall below the floor and the two versions both return 500. -/
theorem lr_versions_share_only_floor_witness :
    predictLinearRegression (-100) 0 0 0 0 =
      predictLinearRegressionEnh (-100) 0 0 0 0 0 0 0 0 0 0 0 :=
  lr_versions_share_only_floor.2.2 (-100) 0 0 0 0
    (by norm_num [round2, round_eq]) (by norm_num [round2, round_eq])

/-- C9 counterexample: with an empty training set the fallback path makes
the enhanced endpoint's KNN result depend on the query's fertilizer, so
two queries that differ only in fertilizer get different results there. -/
theorem rf_enh_fertilizer_matters_when_empty :
    rfYieldOfQuery id ⟨25, 1000, 0, 7, 60, 0, 0, 0⟩ (some []) ≠
      rfYieldOfQuery id ⟨25, 1000, 100, 7, 60, 0, 0, 0⟩ (some []) := by
  norm_num [rfYieldOfQuery, predictRandomForestEnh, predictLinearRegressionEnh,
    cappedTemp, cappedRainfall, round2, round_eq]

/-- C9 amended: for every non-empty training set, the enhanced endpoint's
KNN estimate is independent of the query's fertilizer, soil pH, nitrogen,
phosphorus and potassium: two queries agreeing on temperature, rainfall
and humidity give the same `rfYield`, because the distance uses only those
three query features (plus record-derived terms) and NPK is never passed. -/
theorem rf_enh_independent_of_unused_features (s : ℚ → ℚ) (q1 q2 : QueryEnh)
    (td : List CropRecordEnh) (htemp : q1.temperature = q2.temperature)
    (hrain : q1.rainfall = q2.rainfall) (hhumid : q1.humidity = q2.humidity)
    (hne : td ≠ []) :
    rfYieldOfQuery s q1 (some td) = rfYieldOfQuery s q2 (some td) := by
  have hlen : ¬td.length = 0 := by simpa [List.length_eq_zero] using hne
  rw [rfYieldOfQuery, rfYieldOfQuery]
  simp only [predictRandomForestEnh, if_neg hlen]
  rw [cappedTemp, cappedTemp, cappedRainfall, cappedRainfall, htemp, hrain,
    hhumid]

/-- Witness for C9's amended statement: two queries differing only in
fertilizer, soil pH and NPK give equal results on a one-record set. -/
theorem rf_enh_independent_of_unused_features_witness :
    rfYieldOfQuery id ⟨25, 1000, 0, 7, 60, 0, 0, 0⟩
        (some [⟨25, 1000, 60, 0, 0, 0, none, none, 3000⟩]) =
      rfYieldOfQuery id ⟨25, 1000, 100, 6, 60, 50, 20, 30⟩
        (some [⟨25, 1000, 60, 0, 0, 0, none, none, 3000⟩]) :=
  rf_enh_independent_of_unused_features id _ _ _ rfl rfl rfl (by simp)

/-- C1 counterexample: the estimator returns the weight-normalized average
only after rounding it to two decimals.  Three records at distance 0 with
yields 1, 0, 0 give the average 1/3, but the function returns 0.33. -/
theorem knn_returns_rounded_average :
    predictRandomForest id 25 1000 100 7 60
        (some [⟨25, 1000, 100, 7, 60, 1⟩, ⟨25, 1000, 100, 7, 60, 0⟩,
          ⟨25, 1000, 100, 7, 60, 0⟩]) ≠
      knnSpecEstimate id 25 1000 100 7 60
        [⟨25, 1000, 100, 7, 60, 1⟩, ⟨25, 1000, 100, 7, 60, 0⟩,
          ⟨25, 1000, 100, 7, 60, 0⟩] := by
  have hw : rfWeightedYield id 25 1000 100 7 60
      [⟨25, 1000, 100, 7, 60, 1⟩, ⟨25, 1000, 100, 7, 60, 0⟩,
        ⟨25, 1000, 100, 7, 60, 0⟩] = 1 / 3 := by
    norm_num [rfWeightedYield, rfTotalWeight, rfNearest, rfSorted,
      rfDistances, rfDistanceYield, List.insertionSort, List.orderedInsert,
      knnWeight]
  have hs : knnSpecEstimate id 25 1000 100 7 60
      [⟨25, 1000, 100, 7, 60, 1⟩, ⟨25, 1000, 100, 7, 60, 0⟩,
        ⟨25, 1000, 100, 7, 60, 0⟩] = 1 / 3 := by
    norm_num [knnSpecEstimate, rfDistanceYield, List.insertionSort,
      List.orderedInsert, knnWeight]
  simp only [predictRandomForest, List.length_cons, hw, hs]
  norm_num [round2, round_eq]

/-- C1 amended: for every non-empty historical set, `predictRandomForest`
computes a per-record distance, sorts the records ascending by distance
(the sorted list is an ordered permutation of the distance list), takes
the `k = min(10, N)` closest (all records when `N < 10`), weights each by
`1 / (distance + 0.01)`, and returns the weight-normalized average of
their yield values rounded to two decimal places. -/
theorem knn_pipeline_follows_spec (s : ℚ → ℚ) (temp rain fert ph humid : ℚ)
    (td : List CropRecord) (hne : td ≠ []) :
    (rfSorted s temp rain fert ph humid td).Perm
        (rfDistances s temp rain fert ph humid td) ∧
      List.Sorted (fun a b : DistYield => a.distance ≤ b.distance)
        (rfSorted s temp rain fert ph humid td) ∧
      rfNearest s temp rain fert ph humid td =
        (rfSorted s temp rain fert ph humid td).take (min 10 td.length) ∧
      (td.length < 10 → rfNearest s temp rain fert ph humid td =
        rfSorted s temp rain fert ph humid td) ∧
      predictRandomForest s temp rain fert ph humid (some td) =
        round2 (knnSpecEstimate s temp rain fert ph humid td) := by
  have hlen : ¬td.length = 0 := by simpa [List.length_eq_zero] using hne
  refine ⟨List.perm_insertionSort _ _, List.sorted_insertionSort _ _, rfl,
    ?_, ?_⟩
  · intro h
    rw [rfNearest, min_eq_right (le_of_lt h)]
    exact List.take_of_length_le
      (by rw [rfSorted, List.length_insertionSort, rfDistances,
        List.length_map])
  · simp only [predictRandomForest, if_neg hlen]
    have : rfWeightedYield s temp rain fert ph humid td =
        knnSpecEstimate s temp rain fert ph humid td := by
      rw [rfWeightedYield_eq_div, rfTotalWeight_eq_sum, knnSpecEstimate]
      simp only [rfNearest, rfSorted, rfDistances]
    rw [this]

/-- Witness for C1's amended statement on a one-record historical set. -/
theorem knn_pipeline_follows_spec_witness :
    ([(⟨25, 1000, 100, 7, 60, 3000⟩ : CropRecord)] ≠ []) ∧
      predictRandomForest id 25 1000 100 7 60
          (some [⟨25, 1000, 100, 7, 60, 3000⟩]) =
        round2 (knnSpecEstimate id 25 1000 100 7 60
          [⟨25, 1000, 100, 7, 60, 3000⟩]) :=
  ⟨by simp,
    (knn_pipeline_follows_spec id 25 1000 100 7 60
      [⟨25, 1000, 100, 7, 60, 3000⟩] (by simp)).2.2.2.2⟩

/-- Every nearest neighbour's distance is a square root (modelled by `s`)
of a sum of squares, hence nonnegative whenever `s` preserves
nonnegativity. -/
lemma rfNearest_distance_nonneg (s : ℚ → ℚ) (temp rain fert ph humid : ℚ)
    (td : List CropRecord) (hs : ∀ x : ℚ, 0 ≤ x → 0 ≤ s x) :
    ∀ n ∈ rfNearest s temp rain fert ph humid td, 0 ≤ n.distance := by
  intro n hn
  have h1 : n ∈ rfSorted s temp rain fert ph humid td :=
    List.mem_of_mem_take hn
  rw [rfSorted] at h1
  have h2 := (List.perm_insertionSort
    (fun a b : DistYield => a.distance ≤ b.distance) _).mem_iff.mp h1
  rw [rfDistances] at h2
  obtain ⟨rec, _, hrec⟩ := List.mem_map.mp h2
  rw [← hrec]
  simp only [rfDistanceYield]
  apply hs
  positivity

/-- A non-empty historical set gives a non-empty nearest-neighbour list. -/
lemma rfNearest_ne_nil (s : ℚ → ℚ) (temp rain fert ph humid : ℚ)
    (td : List CropRecord) (hne : td ≠ []) :
    rfNearest s temp rain fert ph humid td ≠ [] := by
  rw [rfNearest, ← List.length_pos, List.length_take, rfSorted,
    List.length_insertionSort, rfDistances, List.length_map]
  have : 0 < td.length := List.length_pos.mpr hne
  omega

/-- The total inverse-distance weight of a non-empty historical set is
strictly positive. -/
lemma rfTotalWeight_pos (s : ℚ → ℚ) (temp rain fert ph humid : ℚ)
    (td : List CropRecord) (hs : ∀ x : ℚ, 0 ≤ x → 0 ≤ s x)
    (hne : td ≠ []) : 0 < rfTotalWeight s temp rain fert ph humid td := by
  rw [rfTotalWeight_eq_sum]
  apply List.sum_pos
  · intro x hx
    obtain ⟨n, hn, hrfl⟩ := List.mem_map.mp hx
    have hd := rfNearest_distance_nonneg s temp rain fert ph humid td hs n hn
    rw [← hrfl, knnWeight]
    positivity
  · intro h
    exact rfNearest_ne_nil s temp rain fert ph humid td hne
      (List.map_eq_nil_iff.mp h)

/-- Rounding to two decimals moves a rational by at most 1/200. -/
lemma round2_close (x : ℚ) : |round2 x - x| ≤ 1 / 200 := by
  rw [round2]
  have h := abs_sub_round (x * 100)
  have heq : ((round (x * 100) : ℤ) : ℚ) / 100 - x =
      -((x * 100 - ((round (x * 100) : ℤ) : ℚ)) / 100) := by ring
  rw [heq, abs_neg, abs_div, abs_of_pos (by norm_num : (0 : ℚ) < 100)]
  linarith

/-- C10: for every non-empty historical set, the KNN estimate is a convex
combination of the selected nearest records' yields up to the final
rounding: any lower bound `m` and upper bound `M` on the yields of the
`k` selected records bound the returned value within 1/200 (half of the
last retained decimal place). -/
theorem knn_estimate_between_bounds (s : ℚ → ℚ)
    (temp rain fert ph humid m M : ℚ) (td : List CropRecord)
    (hs : ∀ x : ℚ, 0 ≤ x → 0 ≤ s x) (hne : td ≠ [])
    (hm : ∀ n ∈ rfNearest s temp rain fert ph humid td, m ≤ n.yield)
    (hM : ∀ n ∈ rfNearest s temp rain fert ph humid td, n.yield ≤ M) :
    m - 1 / 200 ≤ predictRandomForest s temp rain fert ph humid (some td) ∧
      predictRandomForest s temp rain fert ph humid (some td) ≤
        M + 1 / 200 := by
  have hlen : ¬td.length = 0 := by simpa [List.length_eq_zero] using hne
  have hW := rfTotalWeight_pos s temp rain fert ph humid td hs hne
  have hwnn : ∀ n ∈ rfNearest s temp rain fert ph humid td,
      0 ≤ knnWeight n.distance := by
    intro n hn
    have hd := rfNearest_distance_nonneg s temp rain fert ph humid td hs n hn
    rw [knnWeight]
    positivity
  have hub : ((rfNearest s temp rain fert ph humid td).map
      fun n => n.yield * knnWeight n.distance).sum ≤
      M * rfTotalWeight s temp rain fert ph humid td := by
    rw [rfTotalWeight_eq_sum, ← List.sum_map_mul_left]
    exact List.sum_le_sum fun n hn =>
      mul_le_mul_of_nonneg_right (hM n hn) (hwnn n hn)
  have hlb : m * rfTotalWeight s temp rain fert ph humid td ≤
      ((rfNearest s temp rain fert ph humid td).map
        fun n => n.yield * knnWeight n.distance).sum := by
    rw [rfTotalWeight_eq_sum, ← List.sum_map_mul_left]
    exact List.sum_le_sum fun n hn =>
      mul_le_mul_of_nonneg_right (hm n hn) (hwnn n hn)
  have havg_lb : m ≤ rfWeightedYield s temp rain fert ph humid td := by
    rw [rfWeightedYield_eq_div]
    exact (le_div_iff₀ hW).mpr hlb
  have havg_ub : rfWeightedYield s temp rain fert ph humid td ≤ M := by
    rw [rfWeightedYield_eq_div]
    exact (div_le_iff₀ hW).mpr hub
  have hr := abs_le.mp (round2_close (rfWeightedYield s temp rain fert ph
    humid td))
  simp only [predictRandomForest, if_neg hlen]
  constructor
  · linarith [hr.1]
  · linarith [hr.2]

/-- Witness for C10 on a one-record historical set whose yield is 3000. -/
theorem knn_estimate_between_bounds_witness :
    (∀ n ∈ rfNearest id 25 1000 100 7 60
        [(⟨25, 1000, 100, 7, 60, 3000⟩ : CropRecord)], (3000 : ℚ) ≤ n.yield) ∧
      3000 - 1 / 200 ≤ predictRandomForest id 25 1000 100 7 60
          (some [⟨25, 1000, 100, 7, 60, 3000⟩]) ∧
        predictRandomForest id 25 1000 100 7 60
            (some [⟨25, 1000, 100, 7, 60, 3000⟩]) ≤ 3000 + 1 / 200 :=
  ⟨by
    norm_num [rfNearest, rfSorted, rfDistances, rfDistanceYield,
      List.insertionSort, List.orderedInsert],
    knn_estimate_between_bounds id 25 1000 100 7 60 3000 3000 _
      (fun x hx => hx) (by simp)
      (by
        norm_num [rfNearest, rfSorted, rfDistances, rfDistanceYield,
          List.insertionSort, List.orderedInsert])
      (by
        norm_num [rfNearest, rfSorted, rfDistances, rfDistanceYield,
          List.insertionSort, List.orderedInsert])⟩
